import Mathlib

/-!
# Verification of the n8n `AbstractServer` webhook/queue-health subsystem

Shallow embedding of `packages/cli/src/AbstractServer.ts` (as shipped in the
repository under `src/packages/nodes-base/credentials/GithubApi.credentials.ts`
after a document separator): the Redis `retryStrategy` closure, the Redis
client construction in `setupRedisChecks`, the health-check and DB-gating
middleware in `setupHealthCheck`, the listener bootstrap in `init`, and the
route registration in `start`.

Times are modelled as `Int` (JS `Date.now()` millisecond values), strings as
`String`, and the Express layer stack as an ordered list of layers traversed
by a `dispatch` function.
-/

namespace N8n

/-! ## RetryPolicy: the `retryStrategy` closure in `setupRedisChecks`

The closure captures two mutable variables, `lastTimer` and
`cumulativeTimeout` (both initialised to `0`), and the configured
`redisConnectionTimeoutLimit`.  We embed the captured state as a structure
and the closure as a state-passing function. -/

/-- The mutable state captured by the `retryStrategy` closure:
`let lastTimer = 0; let cumulativeTimeout = 0;`. -/
structure RetryWindow where
  lastTimer : Int
  cumulativeTimeout : Int
  deriving DecidableEq, Repr

/-- The outcome of one call of the retry strategy: either the fixed retry
delay (`return 500`) or process termination (`process.exit(1)` when the
cumulative timeout exceeds the configured limit). -/
inductive RetryResult where
  | delay (ms : Int)
  | fatal
  deriving DecidableEq, Repr

/-- One invocation of the `retryStrategy` closure at time `now`, with
configured threshold `limit` (`redisConnectionTimeoutLimit`):

```
const now = Date.now();
if (now - lastTimer > 30000) {
  lastTimer = now;
  cumulativeTimeout = 0;
} else {
  cumulativeTimeout += now - lastTimer;
  lastTimer = now;
  if (cumulativeTimeout > redisConnectionTimeoutLimit) { process.exit(1); }
}
return 500;
``` -/
def retryStrategy (limit : Int) (now : Int) (w : RetryWindow) :
    RetryWindow × RetryResult :=
  if now - w.lastTimer > 30000 then
    ({ lastTimer := now, cumulativeTimeout := 0 }, .delay 500)
  else
    let ct := w.cumulativeTimeout + (now - w.lastTimer)
    if ct > limit then
      ({ lastTimer := now, cumulativeTimeout := ct }, .fatal)
    else
      ({ lastTimer := now, cumulativeTimeout := ct }, .delay 500)

/-- Run the retry strategy over a sequence of failure timestamps.  The
boolean records whether the process was terminated (`process.exit(1)`);
once fatal, no further invocations happen (the process is gone). -/
def runRetry (limit : Int) (w : RetryWindow) : List Int → RetryWindow × Bool
  | [] => (w, false)
  | now :: rest =>
    match retryStrategy limit now w with
    | (w', .fatal) => (w', true)
    | (w', .delay _) => runRetry limit w' rest

/-- `true` iff after every failure in the sequence, the accumulated
cumulative timeout (as the code computes it) stays at or below `limit`. -/
def allCumLe (limit : Int) (w : RetryWindow) : List Int → Bool
  | [] => true
  | now :: rest =>
    let w' := (retryStrategy limit now w).1
    decide (w'.cumulativeTimeout ≤ limit) && allCumLe limit w' rest

theorem retryStrategy_state_eq (limit now : Int) (w : RetryWindow) :
    (retryStrategy limit now w).1 =
      if now - w.lastTimer > 30000 then
        { lastTimer := now, cumulativeTimeout := 0 }
      else
        { lastTimer := now,
          cumulativeTimeout := w.cumulativeTimeout + (now - w.lastTimer) } := by
  unfold retryStrategy
  by_cases h : now - w.lastTimer > 30000
  · simp [h]
  · by_cases h2 : w.cumulativeTimeout + (now - w.lastTimer) > limit <;> simp [h, h2]

theorem retryStrategy_fatal_iff (limit now : Int) (hl : 0 ≤ limit)
    (w : RetryWindow) :
    (retryStrategy limit now w).2 = RetryResult.fatal ↔
      (retryStrategy limit now w).1.cumulativeTimeout > limit := by
  unfold retryStrategy
  by_cases h : now - w.lastTimer > 30000
  · simp [h]
    omega
  · by_cases h2 : w.cumulativeTimeout + (now - w.lastTimer) > limit <;>
      simp [h, h2]

theorem retryStrategy_not_fatal_delay (limit now : Int) (w : RetryWindow) :
    (retryStrategy limit now w).2 ≠ RetryResult.fatal →
      (retryStrategy limit now w).2 = RetryResult.delay 500 := by
  unfold retryStrategy
  by_cases h : now - w.lastTimer > 30000
  · simp [h]
  · by_cases h2 : w.cumulativeTimeout + (now - w.lastTimer) > limit <;>
      simp [h, h2]

theorem runRetry_fatal_iff (limit : Int) (hl : 0 ≤ limit) (w : RetryWindow)
    (ts : List Int) :
    (runRetry limit w ts).2 = true ↔ allCumLe limit w ts = false := by
  induction ts generalizing w with
  | nil => simp [runRetry, allCumLe]
  | cons now rest ih =>
    have hstep := retryStrategy_fatal_iff limit now hl w
    rcases hr : retryStrategy limit now w with ⟨w', res⟩
    cases res with
    | fatal =>
      have hover : w'.cumulativeTimeout > limit := by
        have := hstep.mp (by rw [hr])
        rwa [hr] at this
      simp only [runRetry, allCumLe, hr]
      simp [show ¬ w'.cumulativeTimeout ≤ limit by omega]
    | delay ms =>
      have hok : ¬ w'.cumulativeTimeout > limit := by
        intro hgt
        have := hstep.mpr (by rw [hr]; exact hgt)
        rw [hr] at this
        exact RetryResult.noConfusion this
      simp only [runRetry, allCumLe, hr]
      simp [show w'.cumulativeTimeout ≤ limit by omega, ih]

/-! ## Claim theorems for the retry policy -/

/-- C1 counterexample.  The claim states that after a failure at `lastTimer = 0`
followed by a gap of `40000 ms > 30s` and a new failure at `now = 40000`, the
cumulative downtime equals the new failure's elapsed-time contribution
(window reset to 0, then `now - lastFailureAt = 40000` added).  The code never
adds the elapsed time in the reset branch: the cumulative timeout becomes `0`,
not `40000`, even though the preceding history had `cumulativeTimeout = 5000`. -/
theorem retryStrategy_reset_no_add_counterexample :
    (retryStrategy 100000 40000 ⟨0, 5000⟩).1.cumulativeTimeout = 0 ∧
      ¬ (retryStrategy 100000 40000 ⟨0, 5000⟩).1.cumulativeTimeout
          = 40000 - 0 := by
  constructor <;> decide

/-- C1 (amended): if a failure is followed by a gap of more than 30 seconds
and then a new failure, the cumulative downtime after that new failure is
exactly `0` — the window is reset and the new failure's elapsed time is NOT
added (only subsequent failures within the 30s window accumulate); this holds
for every preceding failure history, and the call still returns the fixed
500 ms delay. -/
theorem retryStrategy_gap_resets_to_zero (limit now : Int) (w : RetryWindow)
    (hgap : now - w.lastTimer > 30000) :
    (retryStrategy limit now w).1.cumulativeTimeout = 0 ∧
      (retryStrategy limit now w).1.lastTimer = now ∧
      (retryStrategy limit now w).2 = RetryResult.delay 500 := by
  unfold retryStrategy
  simp [hgap]

/-- Witness for C1 (amended) at `limit = 100000`, `now = 40000`,
`w = ⟨0, 5000⟩`. -/
theorem retryStrategy_gap_resets_to_zero_witness :
    (retryStrategy 100000 40000 ⟨0, 5000⟩).1.cumulativeTimeout = 0 ∧
      (retryStrategy 100000 40000 ⟨0, 5000⟩).1.lastTimer = 40000 ∧
      (retryStrategy 100000 40000 ⟨0, 5000⟩).2 = RetryResult.delay 500 :=
  retryStrategy_gap_resets_to_zero 100000 40000 ⟨0, 5000⟩ (by decide)

/-- C2: the retry policy signals a fatal verdict (process termination, run
stops) iff the accumulated downtime exceeds the configured threshold at some
step: a sequence of failure timestamps whose accumulated elapsed time stays
at or below the threshold never terminates the process, and every non-fatal
invocation returns the fixed 500 ms delay. -/
theorem runRetry_fatal_iff_threshold_exceeded (limit : Int) (hl : 0 ≤ limit)
    (w : RetryWindow) (ts : List Int) :
    ((runRetry limit w ts).2 = true ↔ allCumLe limit w ts = false) ∧
      (∀ now w', (retryStrategy limit now w').2 ≠ RetryResult.fatal →
        (retryStrategy limit now w').2 = RetryResult.delay 500) :=
  ⟨runRetry_fatal_iff limit hl w ts,
   fun now w' => retryStrategy_not_fatal_delay limit now w'⟩

/-- Witness for C2 at `limit = 1000`, the initial window `⟨0, 0⟩`, and failure
times `[40000, 40100, 45000]`: the third failure pushes the accumulated value
to `5000 > 1000`, and the run terminates exactly there. -/
theorem runRetry_fatal_iff_threshold_exceeded_witness :
    (((runRetry 1000 ⟨0, 0⟩ [40000, 40100, 45000]).2 = true ↔
        allCumLe 1000 ⟨0, 0⟩ [40000, 40100, 45000] = false) ∧
      (∀ now w', (retryStrategy 1000 now w').2 ≠ RetryResult.fatal →
        (retryStrategy 1000 now w').2 = RetryResult.delay 500)) :=
  runRetry_fatal_iff_threshold_exceeded 1000 (by decide) ⟨0, 0⟩
    [40000, 40100, 45000]

/-! ## Redis client construction in `setupRedisChecks`

`setupRedisChecks` builds either a `Redis.Cluster` (when
`getRedisClusterNodes()` returns a non-empty list) or a plain `Redis` client.
Only the single-node branch passes the `retryStrategy` option; the cluster
branch passes `redisOptions: sharedRedisOptions`, which contains no retry
strategy. -/

/-- One entry of `getRedisClusterNodes()`. -/
structure RedisNode where
  host : String
  port : Int
  deriving DecidableEq, Repr

/-- The client configuration handed to the `ioredis` constructor: topology,
node/host information, the shared options, and the optional `retryStrategy`
hook the transport calls on every reconnect attempt. -/
structure BuiltRedisClient where
  isCluster : Bool
  nodes : List RedisNode
  host : Option String
  port : Option Int
  enableReadyCheck : Bool
  maxRetriesPerRequest : Option Nat
  retryStrategy : Option (Int → RetryWindow → RetryWindow × RetryResult)

/-- The client built by `setupRedisChecks`:

```
const usesRedisCluster = clusterNodes.length > 0;
const redis = usesRedisCluster
  ? new Redis.Cluster(clusterNodes.map(...), { redisOptions: sharedRedisOptions })
  : new Redis({ host, port, ...sharedRedisOptions, retryStrategy: ... });
```

where `sharedRedisOptions = { username, password, db, enableReadyCheck: false,
maxRetriesPerRequest: null }` (no `retryStrategy` field). -/
def setupRedisChecksClient (clusterNodes : List RedisNode)
    (host : Option String) (port : Option Int) (limit : Int) :
    BuiltRedisClient :=
  if clusterNodes.length > 0 then
    { isCluster := true
      nodes := clusterNodes
      host := none
      port := none
      enableReadyCheck := false
      maxRetriesPerRequest := none
      retryStrategy := none }
  else
    { isCluster := false
      nodes := []
      host := host
      port := port
      enableReadyCheck := false
      maxRetriesPerRequest := none
      retryStrategy := some (fun now w => retryStrategy limit now w) }

/-- C5 counterexample: with one configured cluster node the code builds a
cluster client whose options contain NO `retryStrategy` hook, so reconnect
attempts in cluster topology never call back into the retry policy and the
fatal-timeout behaviour does not apply there. -/
theorem setupRedisChecksClient_cluster_no_retry_counterexample :
    (setupRedisChecksClient [⟨"redis-0", 6379⟩] none none 1000).isCluster
        = true ∧
      (setupRedisChecksClient [⟨"redis-0", 6379⟩] none none
          1000).retryStrategy.isNone = true := by
  constructor <;> rfl

/-- C5 (amended): the transport's reconnect hook calls back into the retry
policy only in the single-node topology: the built client carries a
`retryStrategy` hook iff no cluster node addresses are configured; in cluster
topology no hook is installed, so the fatal-timeout behaviour applies only to
single-node deployments. -/
theorem setupRedisChecksClient_retry_iff_single (clusterNodes : List RedisNode)
    (host : Option String) (port : Option Int) (limit : Int) :
    (setupRedisChecksClient clusterNodes host port limit).retryStrategy.isSome
        = clusterNodes.isEmpty ∧
      (setupRedisChecksClient clusterNodes host port limit).isCluster
        = !clusterNodes.isEmpty := by
  cases clusterNodes with
  | nil => constructor <;> rfl
  | cons n rest =>
    unfold setupRedisChecksClient
    simp

/-! ## Listener construction and bind-error handling in `init` -/

/-- The kind of listener `init()` builds. -/
inductive ServerKind where
  | https
  | http
  deriving DecidableEq, Repr

/-- `init()`'s listener construction, with the filesystem modelled as a
partial map from paths to file contents (`none` = `readFile` throws):

```
if (protocol === 'https' && sslKey && sslCert) {
  this.server = https.createServer({ key: await readFile(this.sslKey, 'utf8'),
                                     cert: await readFile(this.sslCert, 'utf8') }, app);
} else {
  this.server = http.createServer(app);
}
```

A JS string is truthy iff non-empty, so `sslKey && sslCert` is the test
`sslKey ≠ "" ∧ sslCert ≠ ""`.  A failed `readFile` rejects `init()`
(fatal at startup). -/
def buildServer (protocol sslKey sslCert : String)
    (files : String → Option String) : Except String ServerKind :=
  if protocol = "https" ∧ sslKey ≠ "" ∧ sslCert ≠ "" then
    match files sslKey, files sslCert with
    | some _, some _ => .ok .https
    | _, _ => .error "ENOENT"
  else
    .ok .http

/-- The action the `server.on('error', ...)` handler in `init()` takes for a
listener error with the given `code`. -/
inductive ErrorAction where
  | exitProcess (code : Nat)
  | ignore
  deriving DecidableEq, Repr

/-- ```
this.server.on('error', (error) => {
  if (error.code === 'EADDRINUSE') { console.log(...); process.exit(1); }
});
``` -/
def onServerError (code : String) : ErrorAction :=
  if code = "EADDRINUSE" then .exitProcess 1 else .ignore

/-- C10: if the configured protocol is `https` but the `ssl_key` or
`ssl_cert` value is empty, `init()` silently builds a plain HTTP listener
(no error); construction fails only when the protocol is `https`, both
values are non-empty, and reading the key or certificate file throws. -/
theorem buildServer_https_missing_material_falls_back
    (sslKey sslCert : String) (files : String → Option String) :
    (sslKey = "" ∨ sslCert = "" →
      buildServer "https" sslKey sslCert files = .ok .http) ∧
      (∀ e, buildServer "https" sslKey sslCert files = .error e →
        sslKey ≠ "" ∧ sslCert ≠ "" ∧
          (files sslKey = none ∨ files sslCert = none)) := by
  constructor
  · intro h
    unfold buildServer
    rcases h with h | h <;> simp [h]
  · intro e he
    by_cases hk : sslKey = ""
    · rw [show buildServer "https" sslKey sslCert files = .ok .http by
        unfold buildServer; simp [hk]] at he
      exact absurd he (by simp)
    · by_cases hc : sslCert = ""
      · rw [show buildServer "https" sslKey sslCert files = .ok .http by
          unfold buildServer; simp [hc]] at he
        exact absurd he (by simp)
      · refine ⟨hk, hc, ?_⟩
        unfold buildServer at he
        simp [hk, hc] at he
        rcases hfk : files sslKey with _ | v
        · exact Or.inl rfl
        · rcases hfc : files sslCert with _ | v2
          · exact Or.inr rfl
          · rw [hfk, hfc] at he
            exact Except.noConfusion he

/-- Witness for C10: protocol `https` with an empty key falls back to a
plain HTTP listener even though a certificate path is set, and an error
implies readable-material preconditions (discharged vacuously on the
`.ok` result). -/
theorem buildServer_https_missing_material_falls_back_witness :
    ((("" : String) = "" ∨ ("cert.pem" : String) = "") →
      buildServer "https" "" "cert.pem" (fun _ => some "PEM") = .ok .http) ∧
      (∀ e, buildServer "https" "" "cert.pem" (fun _ => some "PEM")
          = .error e →
        ("" : String) ≠ "" ∧ ("cert.pem" : String) ≠ "" ∧
          ((fun _ => some "PEM") ("" : String) = none ∨
            (fun _ => some "PEM") ("cert.pem" : String) = none)) :=
  buildServer_https_missing_material_falls_back "" "cert.pem"
    (fun _ => some "PEM")

/-! ## Bootstrap sequencing: `init()` and `start()` as event traces

`init()` builds the listener, installs the bind-error handler, awaits
`server.listen(...)`, and only then runs `setupHealthCheck()` (health route,
DB gate, optional Redis checks).  `start()` installs Sentry handlers and the
push server (outside tests), the common middlewares (compression, rawBody),
the webhook routes, optionally the dev CORS middleware, the JSON body parser,
`configure()`, and the ready hook.  We record each side-effecting step as an
event, in program order. -/

/-- The configuration an `AbstractServer` instance reads. -/
structure ServerConfig where
  protocol : String
  sslKey : String
  sslCert : String
  queueMode : Bool
  webhooksEnabled : Bool
  testWebhooksEnabled : Bool
  inTest : Bool
  inDevelopment : Bool
  endpointWebhook : String
  endpointWebhookTest : String
  endpointWebhookWaiting : String
  restEndpoint : String

/-- The observable steps of `init()` and `start()`, in source order. -/
inductive Event where
  | createHttpsServer
  | createHttpServer
  | registerErrorHandler
  | listen
  | registerHealthz
  | registerDbGate
  | setupRedisChecksEv
  | sentryRequestHandler
  | sentryErrorHandler
  | pushServer
  | compressionMw
  | rawBodyMw
  | registerActiveWebhook
  | registerWaitingWebhook
  | registerTestWebhook
  | registerTestWebhookDelete
  | corsMw
  | jsonParserMw
  | configureHook
  | readyHook
  deriving DecidableEq, Repr

/-- Whether `init()` takes the TLS branch:
`protocol === 'https' && sslKey && sslCert`. -/
def usesTls (c : ServerConfig) : Bool :=
  c.protocol == "https" && c.sslKey != "" && c.sslCert != ""

/-- The event trace of `init()`: create the server, install the
`EADDRINUSE` error handler, `await server.listen(...)`, then
`setupHealthCheck()` (health route, then DB gate, then Redis checks when
`executions.mode === 'queue'`). -/
def initEvents (c : ServerConfig) : List Event :=
  [if usesTls c then .createHttpsServer else .createHttpServer,
   .registerErrorHandler, .listen, .registerHealthz, .registerDbGate]
  ++ (if c.queueMode then [.setupRedisChecksEv] else [])

/-- The event trace of `start()`. -/
def startEvents (c : ServerConfig) : List Event :=
  (if c.inTest then [] else [.sentryRequestHandler, .sentryErrorHandler,
    .pushServer])
  ++ [.compressionMw, .rawBodyMw]
  ++ (if c.webhooksEnabled then [.registerActiveWebhook,
    .registerWaitingWebhook] else [])
  ++ (if c.testWebhooksEnabled then [.registerTestWebhook,
    .registerTestWebhookDelete] else [])
  ++ (if c.inDevelopment then [.corsMw] else [])
  ++ [.jsonParserMw, .configureHook]
  ++ (if c.inTest then [] else [.readyHook])

/-- A sample configuration used for concrete counterexamples: plain HTTP,
direct mode, webhooks on, test webhooks off, production-like flags,
default n8n endpoint names. -/
def defaultConfig : ServerConfig where
  protocol := "http"
  sslKey := ""
  sslCert := ""
  queueMode := false
  webhooksEnabled := true
  testWebhooksEnabled := false
  inTest := false
  inDevelopment := false
  endpointWebhook := "webhook"
  endpointWebhookTest := "webhook-test"
  endpointWebhookWaiting := "webhook-waiting"
  restEndpoint := "rest"

/-- C3 counterexample: under `defaultConfig`, `init()` begins listening
(accepting connections) strictly before it registers the health route and
the DB gate — route registration does NOT complete before the listener
accepts connections, so a request can be accepted while `/healthz` is still
unregistered. -/
theorem initEvents_listen_before_routes_counterexample :
    ¬ ((initEvents defaultConfig).indexOf Event.registerHealthz
        < (initEvents defaultConfig).indexOf Event.listen) ∧
      (initEvents defaultConfig).indexOf Event.listen
        < (initEvents defaultConfig).indexOf Event.registerHealthz := by
  constructor <;> decide

/-- C3 (amended): for every configuration, `init()` starts the listener
BEFORE registering the health route and the DB-readiness gate: `listen`
strictly precedes `registerHealthz` and `registerDbGate` in the `init()`
trace (webhook routes are registered separately by `start()`), so there is
a window in which connections are accepted while these routes are still
unregistered. -/
theorem initEvents_listen_precedes_registration (c : ServerConfig) :
    (initEvents c).indexOf Event.listen
        < (initEvents c).indexOf Event.registerHealthz ∧
      (initEvents c).indexOf Event.listen
        < (initEvents c).indexOf Event.registerDbGate := by
  unfold initEvents
  cases h : usesTls c <;> cases hq : c.queueMode <;> simp [h, hq]

/-- C7: a listener error whose code is `EADDRINUSE` (port already in use)
makes the process exit with status 1 immediately; for every configuration
the handler is installed before `listen` is called, and no other error code
triggers an exit (no retry path exists). -/
theorem onServerError_eaddrinuse_exits (c : ServerConfig) :
    onServerError "EADDRINUSE" = ErrorAction.exitProcess 1 ∧
      (initEvents c).indexOf Event.registerErrorHandler
        < (initEvents c).indexOf Event.listen ∧
      (∀ code, code ≠ "EADDRINUSE" → onServerError code = ErrorAction.ignore)
    := by
  refine ⟨rfl, ?_, ?_⟩
  · unfold initEvents
    cases h : usesTls c <;> cases hq : c.queueMode <;> simp [h, hq]
  · intro code hc
    unfold onServerError
    simp [hc]

/-- Witness for C7 at `defaultConfig` and the error code `"ECONNRESET"` for
the no-exit side. -/
theorem onServerError_eaddrinuse_exits_witness :
    onServerError "EADDRINUSE" = ErrorAction.exitProcess 1 ∧
      (initEvents defaultConfig).indexOf Event.registerErrorHandler
        < (initEvents defaultConfig).indexOf Event.listen ∧
      onServerError "ECONNRESET" = ErrorAction.ignore :=
  ⟨(onServerError_eaddrinuse_exits defaultConfig).1,
   (onServerError_eaddrinuse_exits defaultConfig).2.1,
   (onServerError_eaddrinuse_exits defaultConfig).2.2 "ECONNRESET"
     (by decide)⟩

/-- C9: whenever webhook serving is enabled, `start()` registers the webhook
routes in the order active, then waiting, then (when test-webhook serving is
enabled) test, and all of them before the JSON body-parsing middleware, so
the webhook handlers run on the unparsed request body. -/
theorem startEvents_webhooks_before_bodyparser (c : ServerConfig)
    (hw : c.webhooksEnabled = true) :
    (startEvents c).indexOf Event.registerActiveWebhook
        < (startEvents c).indexOf Event.registerWaitingWebhook ∧
      (startEvents c).indexOf Event.registerWaitingWebhook
        < (startEvents c).indexOf Event.jsonParserMw ∧
      (c.testWebhooksEnabled = true →
        (startEvents c).indexOf Event.registerWaitingWebhook
            < (startEvents c).indexOf Event.registerTestWebhook ∧
          (startEvents c).indexOf Event.registerTestWebhook
            < (startEvents c).indexOf Event.jsonParserMw) := by
  unfold startEvents
  rw [hw]
  cases ht : c.inTest <;> cases htw : c.testWebhooksEnabled <;>
    cases hd : c.inDevelopment <;> simp [ht, htw, hd]

/-- Witness for C9 at `defaultConfig` (webhooks enabled, test webhooks
disabled). -/
theorem startEvents_webhooks_before_bodyparser_witness :
    (startEvents defaultConfig).indexOf Event.registerActiveWebhook
        < (startEvents defaultConfig).indexOf Event.registerWaitingWebhook ∧
      (startEvents defaultConfig).indexOf Event.registerWaitingWebhook
        < (startEvents defaultConfig).indexOf Event.jsonParserMw ∧
      (defaultConfig.testWebhooksEnabled = true →
        (startEvents defaultConfig).indexOf Event.registerWaitingWebhook
            < (startEvents defaultConfig).indexOf Event.registerTestWebhook ∧
          (startEvents defaultConfig).indexOf Event.registerTestWebhook
            < (startEvents defaultConfig).indexOf Event.jsonParserMw) :=
  startEvents_webhooks_before_bodyparser defaultConfig rfl

/-! ## Request dispatch over the registered layer stack

The Express app traverses its layers in registration order; a layer either
responds (ending the request) or calls `next()`.  We model the layers the
`AbstractServer` registers, a request as a method plus a segmented path, and
dispatch as a walk over the layer list, falling through to Express's default
404 when no layer responds. -/

/-- HTTP method of a request, as far as the registered routes care. -/
inductive Method where
  | get
  | post
  | delete
  deriving DecidableEq, Repr

/-- An inbound request: method and path split into segments, so
`GET /webhook/a/b` is `⟨.get, ["webhook", "a", "b"]⟩`. -/
structure Request where
  method : Method
  path : List String
  deriving DecidableEq, Repr

/-- `Db.connectionState`, written by the storage collaborator. -/
structure DbState where
  connected : Bool
  migrated : Bool
  deriving DecidableEq, Repr

/-- Webhook lifecycle handled by a dispatched request. -/
inductive Lifecycle where
  | active
  | test
  | waiting
  deriving DecidableEq, Repr

/-- The response a layer produces. -/
inductive Response where
  | okStatus                       -- `res.send({ status: 'ok' })`
  | message (body : String)        -- `res.send(<string>)`
  | errorResponse (msg : String)   -- `sendErrorResponse(res, new ServiceUnavailableError(msg))`
  | webhook (l : Lifecycle)        -- `webhookRequestHandler(<registry>)`
  | testWebhookCancel              -- `send(async (req) => testWebhooks.cancelTestWebhook(req.params.id))`
  | notFound                       -- Express default 404
  deriving DecidableEq, Repr

/-- The layers `init()` and `start()` register, in order.  Middlewares that
always call `next()` (compression, rawBody, Sentry handlers, CORS,
jsonParser — none of them ends a request by itself) are `passThrough`. -/
inductive Layer where
  | healthz
  | dbGate
  | passThrough
  | activeWebhook (endpoint : String)
  | waitingWebhook (endpoint : String)
  | testWebhook (endpoint : String)
  | testWebhookDelete (restEndpoint : String)
  deriving DecidableEq, Repr

/-- Route matching, mirroring the Express path templates:
`GET /healthz`, `app.use` (match-all) for the DB gate and the pass-through
middlewares, `` app.all(`/${endpointWebhook}/:path(*)`) `` (first segment plus
a non-empty remainder), `` app.all(`/${endpointWebhookWaiting}/:path/:suffix?`) ``
(one or two further segments), and
`` app.delete(`/${restEndpoint}/test-webhook/:id`) ``. -/
def layerMatches : Layer → Request → Bool
  | .healthz, r =>
    match r.method, r.path with
    | .get, [s] => s == "healthz"
    | _, _ => false
  | .dbGate, _ => true
  | .passThrough, _ => true
  | .activeWebhook e, r =>
    match r.path with
    | x :: _ :: _ => x == e
    | _ => false
  | .waitingWebhook e, r =>
    match r.path with
    | [x, _] => x == e
    | [x, _, _] => x == e
    | _ => false
  | .testWebhook e, r =>
    match r.path with
    | x :: _ :: _ => x == e
    | _ => false
  | .testWebhookDelete e, r =>
    match r.method, r.path with
    | .delete, [x, seg, _] => x == e && seg == "test-webhook"
    | _, _ => false

/-- What a matched layer does: respond, or pass the request on. -/
inductive LayerResult where
  | respond (resp : Response)
  | next
  deriving DecidableEq, Repr

/-- The behaviour of each registered layer.  The health route ignores the DB
entirely (`res.send({ status: 'ok' })`); the DB gate is

```
if (connectionState.connected) {
  if (connectionState.migrated) next();
  else res.send('n8n is starting up. Please wait');
} else sendErrorResponse(res, new ServiceUnavailableError('Database is not ready!'));
``` -/
def layerAction (db : DbState) : Layer → LayerResult
  | .healthz => .respond .okStatus
  | .dbGate =>
    if db.connected then
      if db.migrated then .next
      else .respond (.message "n8n is starting up. Please wait")
    else .respond (.errorResponse "Database is not ready!")
  | .passThrough => .next
  | .activeWebhook _ => .respond (.webhook .active)
  | .waitingWebhook _ => .respond (.webhook .waiting)
  | .testWebhook _ => .respond (.webhook .test)
  | .testWebhookDelete _ => .respond .testWebhookCancel

/-- Walk the layer stack in registration order; the first matching layer
that responds ends the request, and an exhausted stack is Express's
default 404. -/
def dispatch (db : DbState) (r : Request) : List Layer → Response
  | [] => .notFound
  | l :: ls =>
    if layerMatches l r then
      match layerAction db l with
      | .respond resp => resp
      | .next => dispatch db r ls
    else dispatch db r ls

/-- The layers `setupHealthCheck()` registers, in order: the `/healthz`
route first, then the DB-readiness gate. -/
def healthCheckLayers : List Layer := [.healthz, .dbGate]

/-- The layers `start()` registers, in order: Sentry handlers (outside
tests), compression, rawBody, the webhook routes, optionally the dev CORS
middleware, and the JSON body parser. -/
def startLayers (c : ServerConfig) : List Layer :=
  (if c.inTest then [] else [.passThrough, .passThrough])
  ++ [.passThrough, .passThrough]
  ++ (if c.webhooksEnabled then
      [.activeWebhook c.endpointWebhook,
       .waitingWebhook c.endpointWebhookWaiting] else [])
  ++ (if c.testWebhooksEnabled then
      [.testWebhook c.endpointWebhookTest,
       .testWebhookDelete c.restEndpoint] else [])
  ++ (if c.inDevelopment then [.passThrough] else [])
  ++ [.passThrough]

/-- The full layer stack of a bootstrapped server: `init()` registers the
health-check layers, `start()` the rest. -/
def appLayers (c : ServerConfig) : List Layer :=
  healthCheckLayers ++ startLayers c

theorem dispatch_skip (db : DbState) (r : Request) (l : Layer)
    (ls : List Layer) (h : layerMatches l r = false) :
    dispatch db r (l :: ls) = dispatch db r ls := by
  conv_lhs => rw [dispatch]
  simp [h]

theorem dispatch_next (db : DbState) (r : Request) (l : Layer)
    (ls : List Layer) (hm : layerMatches l r = true)
    (ha : layerAction db l = .next) :
    dispatch db r (l :: ls) = dispatch db r ls := by
  conv_lhs => rw [dispatch]
  simp [hm, ha]

/-- C6: a `GET /healthz` request always receives the static ok status,
whatever the DB connection state (in particular when `connected = false`):
the health route is registered before the DB gate and consults nothing. -/
theorem healthz_always_ok (c : ServerConfig) (db : DbState) :
    dispatch db ⟨.get, ["healthz"]⟩ (appLayers c) = Response.okStatus := by
  rfl

/-- C4: for every request that is not the health route, when the DB reports
`connected = true, migrated = false` the gate responds with the transient
"starting up" message (a plain `res.send`, not an error response), when
`connected = false` it responds with the service-unavailable error, and the
two responses are distinct. -/
theorem dbGate_distinguishes_states (c : ServerConfig) (r : Request)
    (m : Bool) (hnh : layerMatches Layer.healthz r = false) :
    dispatch ⟨true, false⟩ r (appLayers c)
        = Response.message "n8n is starting up. Please wait" ∧
      dispatch ⟨false, m⟩ r (appLayers c)
        = Response.errorResponse "Database is not ready!" ∧
      Response.message "n8n is starting up. Please wait"
        ≠ Response.errorResponse "Database is not ready!" := by
  refine ⟨?_, ?_, by simp⟩
  · rw [show appLayers c
        = Layer.healthz :: Layer.dbGate :: startLayers c from rfl,
      dispatch_skip _ _ _ _ hnh]
    rfl
  · rw [show appLayers c
        = Layer.healthz :: Layer.dbGate :: startLayers c from rfl,
      dispatch_skip _ _ _ _ hnh]
    rfl

/-- Witness for C4 at a REST request `GET /rest/workflows` under
`defaultConfig`. -/
theorem dbGate_distinguishes_states_witness :
    dispatch ⟨true, false⟩ ⟨.get, ["rest", "workflows"]⟩
        (appLayers defaultConfig)
        = Response.message "n8n is starting up. Please wait" ∧
      dispatch ⟨false, true⟩ ⟨.get, ["rest", "workflows"]⟩
        (appLayers defaultConfig)
        = Response.errorResponse "Database is not ready!" ∧
      Response.message "n8n is starting up. Please wait"
        ≠ Response.errorResponse "Database is not ready!" :=
  dbGate_distinguishes_states defaultConfig ⟨.get, ["rest", "workflows"]⟩
    true rfl

theorem healthz_no_match_long (m : Method) (x q : String)
    (p : List String) :
    layerMatches Layer.healthz ⟨m, x :: q :: p⟩ = false := by
  cases m <;> rfl

theorem activeWebhook_no_match (e x q : String) (m : Method)
    (p : List String) (h : x ≠ e) :
    layerMatches (Layer.activeWebhook e) ⟨m, x :: q :: p⟩ = false :=
  beq_eq_false_iff_ne.mpr h

theorem testWebhook_no_match (e x q : String) (m : Method)
    (p : List String) (h : x ≠ e) :
    layerMatches (Layer.testWebhook e) ⟨m, x :: q :: p⟩ = false :=
  beq_eq_false_iff_ne.mpr h

theorem waitingWebhook_no_match (e x q : String) (m : Method)
    (p : List String) (h : x ≠ e) :
    layerMatches (Layer.waitingWebhook e) ⟨m, x :: q :: p⟩ = false := by
  rcases p with _ | ⟨b, _ | ⟨b2, t⟩⟩
  · exact beq_eq_false_iff_ne.mpr h
  · exact beq_eq_false_iff_ne.mpr h
  · rfl

/-- C8: when test-webhook serving is disabled, neither the test-webhook
dispatch route nor the test-webhook deletion route appears anywhere in the
registered layer stack, and any request whose path lies under the test
webhook endpoint (the endpoint being distinct from the active and waiting
endpoints) falls through every registered layer to the listener's general
not-found behaviour (given a ready DB, so the gate passes it on). -/
theorem testWebhooks_disabled_not_found (c : ServerConfig)
    (hc : c.testWebhooksEnabled = false) (m : Method) (q : String)
    (p : List String)
    (hne1 : c.endpointWebhookTest ≠ c.endpointWebhook)
    (hne2 : c.endpointWebhookTest ≠ c.endpointWebhookWaiting) :
    (∀ e, Layer.testWebhook e ∉ appLayers c) ∧
      (∀ e, Layer.testWebhookDelete e ∉ appLayers c) ∧
      dispatch ⟨true, true⟩ ⟨m, c.endpointWebhookTest :: q :: p⟩
        (appLayers c) = Response.notFound := by
  have hhm := healthz_no_match_long m c.endpointWebhookTest q p
  have ham := activeWebhook_no_match c.endpointWebhook
    c.endpointWebhookTest q m p hne1
  have hwm := waitingWebhook_no_match c.endpointWebhookWaiting
    c.endpointWebhookTest q m p hne2
  refine ⟨?_, ?_, ?_⟩
  · intro e
    cases h1 : c.inTest <;> cases h2 : c.webhooksEnabled <;>
      cases h3 : c.inDevelopment <;>
      simp [appLayers, healthCheckLayers, startLayers, hc, h1, h2, h3]
  · intro e
    cases h1 : c.inTest <;> cases h2 : c.webhooksEnabled <;>
      cases h3 : c.inDevelopment <;>
      simp [appLayers, healthCheckLayers, startLayers, hc, h1, h2, h3]
  · cases h1 : c.inTest <;> cases h2 : c.webhooksEnabled <;>
      cases h3 : c.inDevelopment <;>
      simp [appLayers, healthCheckLayers, startLayers, hc, h1, h2, h3,
        dispatch, layerAction, hhm, ham, hwm]

/-- Witness for C8 under `defaultConfig`, for `GET /webhook-test/foo/bar`. -/
theorem testWebhooks_disabled_not_found_witness :
    (∀ e, Layer.testWebhook e ∉ appLayers defaultConfig) ∧
      (∀ e, Layer.testWebhookDelete e ∉ appLayers defaultConfig) ∧
      dispatch ⟨true, true⟩
        ⟨.get, defaultConfig.endpointWebhookTest :: "foo" :: ["bar"]⟩
        (appLayers defaultConfig) = Response.notFound :=
  testWebhooks_disabled_not_found defaultConfig rfl .get "foo" ["bar"]
    (by decide) (by decide)

end N8n
